import Mathlib

/-!
Verification of the splunk-firehose-nozzle sources against their
natural-language specification.

The development shallowly embeds the Go sources:

* `src/nozzle/nozzle.go` — the `SplunkNozzle` event loop (`Run`,
  `handleEvent`), the per-kind `Build*Metric` constructors, the timestamp
  formatter `nanoSecondsToSeconds` and the identifier renderer `uuidToHex`;
* `src/unnamed/part_000` — the `SplunkFirehoseNozzle` orchestrator, of which
  the `EventSink` writer-creation loop and the status-reporter scheduling are
  modelled.

Machine integers become `Nat`/`Int` (with explicit `% 2 ^ w` where overflow
matters), protobuf optional fields become `Option` with nil-safe getters, and
the two binary64 computations of `nanoSecondsToSeconds` are modelled exactly,
as dyadic rationals with explicit round-to-nearest-even.
-/

/-! ## Decimal and binary64 groundwork for `nanoSecondsToSeconds` -/

/-- Fuel-bounded binary logarithm: for `1 ≤ n < 2 ^ fuel`,
`natLog2Aux fuel n = ⌊log₂ n⌋`.  Structural recursion on the fuel keeps the
definition kernel-reducible. -/
def natLog2Aux : Nat → Nat → Nat
  | 0, _ => 0
  | fuel + 1, n => if 2 ≤ n then natLog2Aux fuel (n / 2) + 1 else 0

/-- Binary logarithm for every number this development computes with
(all are far below `2 ^ 400`). -/
def natLog2 (n : Nat) : Nat := natLog2Aux 400 n

/-- Decimal digit character, `d < 10`. -/
def digitChar (d : Nat) : Char := Char.ofNat (48 + d)

/-- Fuel-bounded decimal printer; correct for `n < 10 ^ fuel`. -/
def natReprAux : Nat → Nat → List Char → List Char
  | 0, _, acc => acc
  | fuel + 1, n, acc =>
    if n < 10 then digitChar n :: acc
    else natReprAux fuel (n / 10) (digitChar (n % 10) :: acc)

/-- Decimal representation of a `Nat` (all numbers printed by the modelled
code are far below `10 ^ 30`). -/
def natRepr (n : Nat) : String := String.mk (natReprAux 30 n [])

/-- Three-digit zero-padded decimal field, `r < 1000`; the fractional part of
Go's `%.3f`. -/
def pad3 (r : Nat) : String :=
  if r < 10 then "00" ++ natRepr r
  else if r < 100 then "0" ++ natRepr r
  else natRepr r

/-- Exact value `m * 2 ^ e` of an IEEE-754 binary64 (specials never arise in
the modelled code paths). -/
structure Dyadic where
  m : Int
  e : Int
deriving DecidableEq

/-- Binary64 values that the code only carries around (never computes with),
such as `ValueMetric.value`, are modelled by their exact dyadic value. -/
abbrev Float64 := Dyadic

/-- Round an integer-significand dyadic to at most 53 significant bits,
round-to-nearest, ties to even: the binary64 closest to `x`.  Exact for the
normal range, which covers every value the nozzle computes. -/
def dyadicRoundTo53 (x : Dyadic) : Dyadic :=
  if x.m = 0 then ⟨0, 0⟩
  else
    let a := x.m.natAbs
    let k := natLog2 a
    if k < 53 then x
    else
      let s := k - 52
      let q := a / 2 ^ s
      let r := a % 2 ^ s
      let half := 2 ^ (s - 1)
      let q' :=
        if r < half then q
        else if half < r then q + 1
        else if q % 2 = 0 then q else q + 1
      ⟨if x.m < 0 then -(q' : Int) else (q' : Int), x.e + s⟩

/-- Exact product of two dyadics (the real product, before rounding). -/
def dyadicMul (x y : Dyadic) : Dyadic := ⟨x.m * y.m, x.e + y.e⟩

/-- Go's `float64(nanoseconds)`: the int64 rounded to binary64. -/
def dyadicOfInt (n : Int) : Dyadic := dyadicRoundTo53 ⟨n, 0⟩

/-- Round the positive rational `num / den` (normal binary64 range) to
binary64, nearest, ties to even; returns its exact value. -/
def roundRatToFloat64 (num den : Nat) : Dyadic :=
  let a : Int := natLog2 num
  let b : Int := natLog2 den
  let g : Int := a - b
  let e : Int :=
    if (den : Int) * 2 ^ g.toNat ≤ (num : Int) * 2 ^ (-g).toNat then g else g - 1
  let s : Int := 52 - e
  let bigN := num * 2 ^ s.toNat
  let bigD := den * 2 ^ (-s).toNat
  let q := bigN / bigD
  let r := bigN % bigD
  let q' :=
    if 2 * r < bigD then q
    else if bigD < 2 * r then q + 1
    else if q % 2 = 0 then q else q + 1
  ⟨(q' : Int), e - 52⟩

/-- Go's `math.Pow(1000, -3)` (nozzle.go line 273).  For the integer exponent
`-3`, Go's `pow` computes `1000³ = 10⁹` exactly in binary64 (`10⁹ < 2⁵³`),
takes `1 / 10⁹` with one correctly rounded division, and rescales by an exact
power of two — so the result is the binary64 nearest `1 / 10⁹`. -/
def mathPow1000Neg3 : Dyadic := roundRatToFloat64 1 1000000000

/-- Round-to-nearest integer (ties to even) of `a * 2 ^ e`, `a : Nat`:
the quantity Go's `%.3f` keeps after scaling the exact binary64 value by
1000. -/
def roundDyadicHalfEven (a : Nat) (e : Int) : Nat :=
  if 0 ≤ e then a * 2 ^ e.toNat
  else
    let s := (-e).toNat
    let q := a / 2 ^ s
    let r := a % 2 ^ s
    let half := 2 ^ (s - 1)
    if r < half then q
    else if half < r then q + 1
    else if q % 2 = 0 then q else q + 1

/-- Go's `fmt.Sprintf("%.3f", v)` on the exact binary64 value `v`: sign,
integer part, and exactly three decimal digits, rounded to nearest (ties to
even, as `strconv` rounds the exact binary value). -/
def sprintfDot3f (v : Dyadic) : String :=
  let sign := if v.m < 0 then "-" else ""
  let a := v.m.natAbs
  let n3 := roundDyadicHalfEven (a * 1000) v.e
  sign ++ natRepr (n3 / 1000) ++ "." ++ pad3 (n3 % 1000)

/-- `nanoSecondsToSeconds` (nozzle.go lines 272–275):
`seconds := float64(nanoseconds) * math.Pow(1000, -3)` followed by
`fmt.Sprintf("%.3f", seconds)`, with both binary64 operations modelled
exactly. -/
def nanoSecondsToSeconds (nanoseconds : Int) : String :=
  let seconds := dyadicRoundTo53 (dyadicMul (dyadicOfInt nanoseconds) mathPow1000Neg3)
  sprintfDot3f seconds

/-- The conversion the spec describes instead (spec §4.1): seconds with
exactly three decimal digits obtained by truncating — not rounding — the
fractional part of `nanoseconds / 10⁹`. -/
def truncatedThreeDecimalSeconds (nanoseconds : Int) : String :=
  let sign := if nanoseconds < 0 then "-" else ""
  let a := nanoseconds.natAbs
  sign ++ natRepr (a / 10 ^ 9) ++ "." ++ pad3 (a / 10 ^ 6 % 1000)

/-- The output ends in a decimal point followed by exactly three decimal
digit characters. -/
def hasThreeDecimals (s : String) : Prop :=
  ∃ a b : String,
    s = a ++ "." ++ b ∧ b.length = 3 ∧ b.data.all (fun c => c.isDigit) = true

/-! ## `uuidToHex` (nozzle.go lines 277–301) -/

/-- Lowercase hexadecimal digit character, `d < 16` (`hex.Encode` uses the
table "0123456789abcdef"). -/
def hexDigitChar (d : Nat) : Char :=
  if d < 10 then Char.ofNat (48 + d) else Char.ofNat (87 + d)

/-- Character class of `hex.Encode` output: `0`–`9` or `a`–`f`. -/
def isLowerHexDigit (c : Char) : Bool :=
  (48 ≤ c.toNat && c.toNat ≤ 57) || (97 ≤ c.toNat && c.toNat ≤ 102)

/-- `hex.Encode`: two lowercase hex characters per byte, high nibble first. -/
def hexChars : List Nat → List Char
  | [] => []
  | b :: rest => hexDigitChar (b / 16) :: hexDigitChar (b % 16) :: hexChars rest

/-- `hex.Encode` of a byte slice, as a string. -/
def hexEncode (bs : List Nat) : String := String.mk (hexChars bs)

/-- `binary.Write(buffer, binary.LittleEndian, x)` for a uint64: the eight
bytes of `x`, least significant first. -/
def leBytes8 (x : Nat) : List Nat :=
  [x % 256, x / 256 % 256, x / 256 ^ 2 % 256, x / 256 ^ 3 % 256,
   x / 256 ^ 4 % 256, x / 256 ^ 5 % 256, x / 256 ^ 6 % 256, x / 256 ^ 7 % 256]

namespace events

/-- `events.UUID` (sonde-go): a 128-bit identifier transmitted as two uint64
halves.  The Go struct holds them behind pointers; envelopes always carry
both halves, so the halves are modelled directly and a wholly absent
identifier is `Option.none` at the use sites. -/
structure UUID where
  Low : Nat
  High : Nat
deriving DecidableEq

end events

/-- `uuidToHex` (nozzle.go lines 279–301): `""` for a nil identifier;
otherwise the 16 little-endian bytes of `Low` then `High`, hex encoded with
dashes after bytes 4, 6, 8 and 10 (the 8-4-4-4-12 UUID layout). -/
def uuidToHex : Option events.UUID → String
  | none => ""
  | some uuid =>
    let bufferBytes := leBytes8 uuid.Low ++ leBytes8 uuid.High
    hexEncode (bufferBytes.take 4) ++ "-" ++
      hexEncode ((bufferBytes.drop 4).take 2) ++ "-" ++
      hexEncode ((bufferBytes.drop 6).take 2) ++ "-" ++
      hexEncode ((bufferBytes.drop 8).take 2) ++ "-" ++
      hexEncode (bufferBytes.drop 10)

/-- A 36-character canonical UUID rendering: five lowercase-hex groups of
lengths 8, 4, 4, 4 and 12, separated by dashes. -/
def isCanonicalUuidHex (s : String) : Prop :=
  ∃ g1 g2 g3 g4 g5 : String,
    s = g1 ++ "-" ++ g2 ++ "-" ++ g3 ++ "-" ++ g4 ++ "-" ++ g5 ∧
    (g1.length = 8 ∧ g1.data.all isLowerHexDigit = true) ∧
    (g2.length = 4 ∧ g2.data.all isLowerHexDigit = true) ∧
    (g3.length = 4 ∧ g3.data.all isLowerHexDigit = true) ∧
    (g4.length = 4 ∧ g4.data.all isLowerHexDigit = true) ∧
    (g5.length = 12 ∧ g5.data.all isLowerHexDigit = true)

/-! ## The sonde-go `events` data model used by nozzle.go

Protobuf message fields are pointers in Go; they are modelled as `Option`
with the generated nil-safe getters (`GetX` returns the zero value of the
field type when the message or the field is absent). -/

namespace events

/-- `events.Envelope_EventType` (dropsonde envelope.proto). -/
inductive Envelope_EventType where
  | HttpStart
  | HttpStop
  | HttpStartStop
  | LogMessage
  | ValueMetric
  | CounterEvent
  | Error
  | ContainerMetric
deriving DecidableEq

/-- `events.PeerType` (dropsonde http.proto). -/
inductive PeerType where
  | Client
  | Server
deriving DecidableEq

/-- `events.Method` (dropsonde http.proto).  The enum has 44 values; the
nozzle only ever calls its `String` method and never inspects it, so two
representative constructors stand for the full set. -/
inductive Method where
  | GET
  | POST
deriving DecidableEq

/-- `events.LogMessage_MessageType`. -/
inductive LogMessage_MessageType where
  | OUT
  | ERR
deriving DecidableEq

/-- `events.HttpStartStop` (fields read by nozzle.go). -/
structure HttpStartStop where
  startTimestamp : Option Int := none
  stopTimestamp : Option Int := none
  requestId : Option UUID := none
  peerType : Option PeerType := none
  method : Option Method := none
  uri : Option String := none
  remoteAddress : Option String := none
  userAgent : Option String := none
  statusCode : Option Int := none
  contentLength : Option Int := none
  applicationId : Option UUID := none
  instanceIndex : Option Int := none
  forwarded : List String := []
deriving DecidableEq

/-- `events.LogMessage` (fields read by nozzle.go); `message` is a byte
slice in Go, converted to a string by the nozzle. -/
structure LogMessage where
  message : Option String := none
  messageType : Option LogMessage_MessageType := none
  timestamp : Option Int := none
  appId : Option String := none
  sourceType : Option String := none
  sourceInstance : Option String := none
deriving DecidableEq

/-- `events.ValueMetric`. -/
structure ValueMetric where
  name : Option String := none
  value : Option Float64 := none
  unit : Option String := none
deriving DecidableEq

/-- `events.CounterEvent`. -/
structure CounterEvent where
  name : Option String := none
  delta : Option Nat := none
  total : Option Nat := none
deriving DecidableEq

/-- `events.Error`. -/
structure Error where
  source : Option String := none
  code : Option Int := none
  message : Option String := none
deriving DecidableEq

/-- `events.ContainerMetric`. -/
structure ContainerMetric where
  applicationId : Option String := none
  instanceIndex : Option Int := none
  cpuPercentage : Option Float64 := none
  memoryBytes : Option Nat := none
  diskBytes : Option Nat := none
deriving DecidableEq

/-- `events.Envelope` (fields read by nozzle.go). -/
structure Envelope where
  eventType : Option Envelope_EventType := none
  deployment : Option String := none
  job : Option String := none
  index : Option String := none
  ip : Option String := none
  timestamp : Option Int := none
  httpStartStop : Option HttpStartStop := none
  logMessage : Option LogMessage := none
  valueMetric : Option ValueMetric := none
  counterEvent : Option CounterEvent := none
  error : Option Error := none
  containerMetric : Option ContainerMetric := none
deriving DecidableEq

/-- Generated getter: the enum's first value when the field is absent. -/
def Envelope.GetEventType (e : Envelope) : Envelope_EventType :=
  e.eventType.getD .HttpStart

def Envelope.GetDeployment (e : Envelope) : String := e.deployment.getD ""

def Envelope.GetJob (e : Envelope) : String := e.job.getD ""

def Envelope.GetIndex (e : Envelope) : String := e.index.getD ""

def Envelope.GetIp (e : Envelope) : String := e.ip.getD ""

def Envelope.GetTimestamp (e : Envelope) : Int := e.timestamp.getD 0

def Envelope.GetCounterEvent (e : Envelope) : Option CounterEvent := e.counterEvent

def Envelope.GetContainerMetric (e : Envelope) : Option ContainerMetric := e.containerMetric

/-- Nil-receiver-safe getters of `*events.HttpStartStop` (the nozzle reads
the raw `Envelope.HttpStartStop` pointer, which may be nil). -/
def HttpStartStop.GetStartTimestamp (m : Option HttpStartStop) : Int :=
  (m.bind (·.startTimestamp)).getD 0

def HttpStartStop.GetStopTimestamp (m : Option HttpStartStop) : Int :=
  (m.bind (·.stopTimestamp)).getD 0

def HttpStartStop.GetRequestId (m : Option HttpStartStop) : Option UUID :=
  m.bind (·.requestId)

def HttpStartStop.GetPeerType (m : Option HttpStartStop) : PeerType :=
  (m.bind (·.peerType)).getD .Client

def HttpStartStop.GetMethod (m : Option HttpStartStop) : Method :=
  (m.bind (·.method)).getD .GET

def HttpStartStop.GetUri (m : Option HttpStartStop) : String :=
  (m.bind (·.uri)).getD ""

def HttpStartStop.GetRemoteAddress (m : Option HttpStartStop) : String :=
  (m.bind (·.remoteAddress)).getD ""

def HttpStartStop.GetUserAgent (m : Option HttpStartStop) : String :=
  (m.bind (·.userAgent)).getD ""

def HttpStartStop.GetStatusCode (m : Option HttpStartStop) : Int :=
  (m.bind (·.statusCode)).getD 0

def HttpStartStop.GetContentLength (m : Option HttpStartStop) : Int :=
  (m.bind (·.contentLength)).getD 0

def HttpStartStop.GetApplicationId (m : Option HttpStartStop) : Option UUID :=
  m.bind (·.applicationId)

def HttpStartStop.GetInstanceIndex (m : Option HttpStartStop) : Int :=
  (m.bind (·.instanceIndex)).getD 0

def HttpStartStop.GetForwarded (m : Option HttpStartStop) : List String :=
  (m.map (·.forwarded)).getD []

def LogMessage.GetMessage (m : Option LogMessage) : String :=
  (m.bind (·.message)).getD ""

def LogMessage.GetMessageType (m : Option LogMessage) : LogMessage_MessageType :=
  (m.bind (·.messageType)).getD .OUT

def LogMessage.GetTimestamp (m : Option LogMessage) : Int :=
  (m.bind (·.timestamp)).getD 0

def LogMessage.GetAppId (m : Option LogMessage) : String :=
  (m.bind (·.appId)).getD ""

def LogMessage.GetSourceType (m : Option LogMessage) : String :=
  (m.bind (·.sourceType)).getD ""

def LogMessage.GetSourceInstance (m : Option LogMessage) : String :=
  (m.bind (·.sourceInstance)).getD ""

def ValueMetric.GetName (m : Option ValueMetric) : String :=
  (m.bind (·.name)).getD ""

def ValueMetric.GetValue (m : Option ValueMetric) : Float64 :=
  (m.bind (·.value)).getD ⟨0, 0⟩

def ValueMetric.GetUnit (m : Option ValueMetric) : String :=
  (m.bind (·.unit)).getD ""

def CounterEvent.GetName (m : Option CounterEvent) : String :=
  (m.bind (·.name)).getD ""

def CounterEvent.GetDelta (m : Option CounterEvent) : Nat :=
  (m.bind (·.delta)).getD 0

def CounterEvent.GetTotal (m : Option CounterEvent) : Nat :=
  (m.bind (·.total)).getD 0

def Error.GetSource (m : Option Error) : String :=
  (m.bind (·.source)).getD ""

def Error.GetCode (m : Option Error) : Int :=
  (m.bind (·.code)).getD 0

def Error.GetMessage (m : Option Error) : String :=
  (m.bind (·.message)).getD ""

def ContainerMetric.GetApplicationId (m : Option ContainerMetric) : String :=
  (m.bind (·.applicationId)).getD ""

def ContainerMetric.GetInstanceIndex (m : Option ContainerMetric) : Int :=
  (m.bind (·.instanceIndex)).getD 0

def ContainerMetric.GetCpuPercentage (m : Option ContainerMetric) : Float64 :=
  (m.bind (·.cpuPercentage)).getD ⟨0, 0⟩

def ContainerMetric.GetMemoryBytes (m : Option ContainerMetric) : Nat :=
  (m.bind (·.memoryBytes)).getD 0

def ContainerMetric.GetDiskBytes (m : Option ContainerMetric) : Nat :=
  (m.bind (·.diskBytes)).getD 0

end events

/-- The protobuf `String` method of `Envelope_EventType`: the enum value's
canonical name. -/
def eventTypeString : events.Envelope_EventType → String
  | .HttpStart => "HttpStart"
  | .HttpStop => "HttpStop"
  | .HttpStartStop => "HttpStartStop"
  | .LogMessage => "LogMessage"
  | .ValueMetric => "ValueMetric"
  | .CounterEvent => "CounterEvent"
  | .Error => "Error"
  | .ContainerMetric => "ContainerMetric"

/-- The protobuf `String` method of `PeerType`. -/
def peerTypeString : events.PeerType → String
  | .Client => "Client"
  | .Server => "Server"

/-- The protobuf `String` method of `Method` (restricted to the modelled
constructors). -/
def methodString : events.Method → String
  | .GET => "GET"
  | .POST => "POST"

/-- The protobuf `String` method of `LogMessage_MessageType`. -/
def messageTypeString : events.LogMessage_MessageType → String
  | .OUT => "OUT"
  | .ERR => "ERR"

/-! ## SplunkEvent and the `Build*Metric` constructors (nozzle.go 102–270) -/

/-- `CommonMetricFields` (nozzle.go lines 102–106); Go zero value `{}` has
all fields empty. -/
structure CommonMetricFields where
  Deployment : String := ""
  Index : String := ""
  EventType : String := ""
deriving DecidableEq

/-- `SplunkHttpStartStopMetric` (nozzle.go lines 121–136); the embedded
`CommonMetricFields` becomes the field `Common`. -/
structure SplunkHttpStartStopMetric where
  Common : CommonMetricFields := {}
  StartTimestamp : Int
  StopTimestamp : Int
  RequestId : String
  PeerType : String
  Method : String
  Uri : String
  RemoteAddress : String
  UserAgent : String
  StatusCode : Int
  ContentLength : Int
  ApplicationId : String
  InstanceIndex : Int
  Forwarded : List String
deriving DecidableEq

/-- `SplunkLogMessageMetric` (nozzle.go lines 162–170). -/
structure SplunkLogMessageMetric where
  Common : CommonMetricFields := {}
  Message : String
  MessageType : String
  Timestamp : Int
  AppId : String
  SourceType : String
  SourceInstance : String
deriving DecidableEq

/-- `SplunkValueMetric` (nozzle.go lines 188–193). -/
structure SplunkValueMetric where
  Common : CommonMetricFields := {}
  Name : String
  Value : Float64
  Unit : String
deriving DecidableEq

/-- `SplunkCounterEventMetric` (nozzle.go lines 208–213). -/
structure SplunkCounterEventMetric where
  Common : CommonMetricFields := {}
  Name : String
  Delta : Nat
  Total : Nat
deriving DecidableEq

/-- `SplunkErrorMetric` (nozzle.go lines 228–233). -/
structure SplunkErrorMetric where
  Common : CommonMetricFields := {}
  Source : String
  Code : Int
  Message : String
deriving DecidableEq

/-- `SplunkContainerMetric` (nozzle.go lines 248–255). -/
structure SplunkContainerMetric where
  Common : CommonMetricFields := {}
  ApplicationId : String
  InstanceIndex : Int
  CpuPercentage : Float64
  MemoryBytes : Nat
  DiskBytes : Nat
deriving DecidableEq

/-- The kind-specific payload stored in `SplunkEvent.Event` (an `interface{}`
in Go, always one of the six metric structs). -/
inductive SplunkPayload where
  | httpStartStop (m : SplunkHttpStartStopMetric)
  | logMessage (m : SplunkLogMessageMetric)
  | valueMetric (m : SplunkValueMetric)
  | counterEvent (m : SplunkCounterEventMetric)
  | errorMetric (m : SplunkErrorMetric)
  | containerMetric (m : SplunkContainerMetric)
deriving DecidableEq

/-- `SplunkEvent` is declared outside src/; its fields are modelled from its
uses in nozzle.go: `Time`, `Host`, `Source` (set by `buildSplunkMetric`) and
`Event` (set by each `Build*Metric`). -/
structure SplunkEvent where
  Time : String
  Host : String
  Source : String
  Event : SplunkPayload
deriving DecidableEq

/-- The `eventType` field of an output record's payload. -/
def payloadEventType : SplunkPayload → String
  | .httpStartStop m => m.Common.EventType
  | .logMessage m => m.Common.EventType
  | .valueMetric m => m.Common.EventType
  | .counterEvent m => m.Common.EventType
  | .errorMetric m => m.Common.EventType
  | .containerMetric m => m.Common.EventType

/-- `buildSplunkMetric` (nozzle.go lines 108–119).  The Go function writes
deployment, index and eventType through the `shared` pointer into the
caller's payload struct, then returns the `SplunkEvent` shell; the caller
stores the payload into `.Event` afterwards.  Modelled functionally:
`mkEvent` re-assembles the caller's payload from the updated common
fields. -/
def buildSplunkMetric (nozzleEvent : events.Envelope)
    (mkEvent : CommonMetricFields → SplunkPayload) : SplunkEvent :=
  let shared : CommonMetricFields :=
    { Deployment := nozzleEvent.GetDeployment
      Index := nozzleEvent.GetIndex
      EventType := eventTypeString nozzleEvent.GetEventType }
  { Time := nanoSecondsToSeconds nozzleEvent.GetTimestamp
    Host := nozzleEvent.GetIp
    Source := nozzleEvent.GetJob
    Event := mkEvent shared }

/-- `BuildHttpStartStopMetric` (nozzle.go lines 138–160); reads the raw,
possibly nil `HttpStartStop` pointer through nil-safe getters. -/
def BuildHttpStartStopMetric (nozzleEvent : events.Envelope) : SplunkEvent :=
  let startStop := nozzleEvent.httpStartStop
  buildSplunkMetric nozzleEvent fun shared =>
    .httpStartStop
      { Common := shared
        StartTimestamp := events.HttpStartStop.GetStartTimestamp startStop
        StopTimestamp := events.HttpStartStop.GetStopTimestamp startStop
        RequestId := uuidToHex (events.HttpStartStop.GetRequestId startStop)
        PeerType := peerTypeString (events.HttpStartStop.GetPeerType startStop)
        Method := methodString (events.HttpStartStop.GetMethod startStop)
        Uri := events.HttpStartStop.GetUri startStop
        RemoteAddress := events.HttpStartStop.GetRemoteAddress startStop
        UserAgent := events.HttpStartStop.GetUserAgent startStop
        StatusCode := events.HttpStartStop.GetStatusCode startStop
        ContentLength := events.HttpStartStop.GetContentLength startStop
        ApplicationId := uuidToHex (events.HttpStartStop.GetApplicationId startStop)
        InstanceIndex := events.HttpStartStop.GetInstanceIndex startStop
        Forwarded := events.HttpStartStop.GetForwarded startStop }

/-- `BuildLogMessageMetric` (nozzle.go lines 172–186). -/
def BuildLogMessageMetric (nozzleEvent : events.Envelope) : SplunkEvent :=
  let logMessageMetric := nozzleEvent.logMessage
  buildSplunkMetric nozzleEvent fun shared =>
    .logMessage
      { Common := shared
        Message := events.LogMessage.GetMessage logMessageMetric
        MessageType := messageTypeString (events.LogMessage.GetMessageType logMessageMetric)
        Timestamp := events.LogMessage.GetTimestamp logMessageMetric
        AppId := events.LogMessage.GetAppId logMessageMetric
        SourceType := events.LogMessage.GetSourceType logMessageMetric
        SourceInstance := events.LogMessage.GetSourceInstance logMessageMetric }

/-- `BuildValueMetric` (nozzle.go lines 195–206). -/
def BuildValueMetric (nozzleEvent : events.Envelope) : SplunkEvent :=
  let valueMetric := nozzleEvent.valueMetric
  buildSplunkMetric nozzleEvent fun shared =>
    .valueMetric
      { Common := shared
        Name := events.ValueMetric.GetName valueMetric
        Value := events.ValueMetric.GetValue valueMetric
        Unit := events.ValueMetric.GetUnit valueMetric }

/-- `BuildCounterEventMetric` (nozzle.go lines 215–226). -/
def BuildCounterEventMetric (nozzleEvent : events.Envelope) : SplunkEvent :=
  let counterEvent := nozzleEvent.GetCounterEvent
  buildSplunkMetric nozzleEvent fun shared =>
    .counterEvent
      { Common := shared
        Name := events.CounterEvent.GetName counterEvent
        Delta := events.CounterEvent.GetDelta counterEvent
        Total := events.CounterEvent.GetTotal counterEvent }

/-- `BuildErrorMetric` (nozzle.go lines 235–246). -/
def BuildErrorMetric (nozzleEvent : events.Envelope) : SplunkEvent :=
  let errorMetric := nozzleEvent.error
  buildSplunkMetric nozzleEvent fun shared =>
    .errorMetric
      { Common := shared
        Source := events.Error.GetSource errorMetric
        Code := events.Error.GetCode errorMetric
        Message := events.Error.GetMessage errorMetric }

/-- `BuildContainerMetric` (nozzle.go lines 257–270). -/
def BuildContainerMetric (nozzleEvent : events.Envelope) : SplunkEvent :=
  let containerMetric := nozzleEvent.GetContainerMetric
  buildSplunkMetric nozzleEvent fun shared =>
    .containerMetric
      { Common := shared
        ApplicationId := events.ContainerMetric.GetApplicationId containerMetric
        InstanceIndex := events.ContainerMetric.GetInstanceIndex containerMetric
        CpuPercentage := events.ContainerMetric.GetCpuPercentage containerMetric
        MemoryBytes := events.ContainerMetric.GetMemoryBytes containerMetric
        DiskBytes := events.ContainerMetric.GetDiskBytes containerMetric }

/-! ## The SplunkNozzle state, constructor and run loop (nozzle.go 15–100) -/

/-- Go `error` values, identified by their message. -/
abbrev GoError := String

/-- The mutable state of a `SplunkNozzle` (nozzle.go lines 19–26): the
event-kind filter map and the current batch.  The splunkClient, the two
channels and the logger are the run loop's collaborators and appear as
parameters of the loop model instead. -/
structure SplunkNozzleState where
  includedEventTypes : events.Envelope_EventType → Bool
  batch : List SplunkEvent

/-- `NewSplunkForwarder` (nozzle.go lines 28–52): starts from the map
literal that sets every event kind to `false`, then sets each selected kind
to `true`; the batch starts empty. -/
def NewSplunkForwarder
    (selectedEventTypes : List events.Envelope_EventType) : SplunkNozzleState :=
  { includedEventTypes :=
      selectedEventTypes.foldl
        (fun m selectedEventType t => if t = selectedEventType then true else m t)
        (fun _ => false)
    batch := [] }

/-- The switch statement of `handleEvent` (nozzle.go lines 80–95):
`splunkEvent` stays nil for `HttpStart` and `HttpStop`, whose cases are
empty (Go switch cases do not fall through). -/
def buildEventFor (eventType : events.Envelope_EventType)
    (event : events.Envelope) : Option SplunkEvent :=
  match eventType with
  | .HttpStart => none
  | .HttpStop => none
  | .HttpStartStop => some (BuildHttpStartStopMetric event)
  | .LogMessage => some (BuildLogMessageMetric event)
  | .ValueMetric => some (BuildValueMetric event)
  | .CounterEvent => some (BuildCounterEventMetric event)
  | .Error => some (BuildErrorMetric event)
  | .ContainerMetric => some (BuildContainerMetric event)

/-- `handleEvent` (nozzle.go lines 72–100): drop the envelope when its kind
is not selected; otherwise run the switch and append the built event, if
any, to the batch. -/
def handleEvent (s : SplunkNozzleState) (event : events.Envelope) : SplunkNozzleState :=
  let eventType := event.GetEventType
  if s.includedEventTypes eventType = false then s
  else
    match buildEventFor eventType event with
    | some splunkEvent => { s with batch := s.batch ++ [splunkEvent] }
    | none => s

/-- One delivery of the `select` statement in `Run` (nozzle.go lines 57–68):
a value from `errorsChannel`, a value from `eventsChannel`, or a firing of
the `time.Tick(flushWindow)` ticker.  A trace of these inputs fixes the
order in which `select` services the three channels. -/
inductive RunInput where
  | sourceError (err : GoError)
  | envelope (event : events.Envelope)
  | tick
deriving DecidableEq

/-- Discriminator for `RunInput.sourceError`. -/
def RunInput.isSourceError : RunInput → Bool
  | .sourceError _ => true
  | _ => false

/-- The nozzle state together with the log of `splunkClient.PostBatch`
calls: one entry per call, carrying the posted batch. -/
structure RunState where
  nozzle : SplunkNozzleState
  posted : List (List SplunkEvent)

/-- One iteration of `Run`'s `for { select { ... } }` loop (nozzle.go lines
56–69).  `postBatch` is `splunkClient.PostBatch`; the code discards its
returned error (line 65) and resets the batch unconditionally.  The result's
second component is `Run`'s return value, `some err` exactly when the loop
hit `return err`. -/
def runStep (postBatch : List SplunkEvent → Option GoError)
    (st : RunState) : RunInput → RunState × Option GoError
  | .sourceError err => (st, some err)
  | .envelope event => ({ st with nozzle := handleEvent st.nozzle event }, none)
  | .tick =>
    if 0 < st.nozzle.batch.length then
      let _discardedErr := postBatch st.nozzle.batch
      ({ nozzle := { st.nozzle with batch := [] }
         posted := st.posted ++ [st.nozzle.batch] }, none)
    else (st, none)

/-- `Run` over a finite trace of channel deliveries: iterate `runStep`,
stopping with the error as soon as an iteration returns one. -/
def runTrace (postBatch : List SplunkEvent → Option GoError)
    (st : RunState) : List RunInput → RunState × Option GoError
  | [] => (st, none)
  | i :: rest =>
    match runStep postBatch st i with
    | (st1, some err) => (st1, some err)
    | (st1, none) => runTrace postBatch st1 rest

/-- A delivery endpoint that fails every POST. -/
def alwaysFailClient : List SplunkEvent → Option GoError :=
  fun _ => some "delivery failed"

/-- A delivery endpoint that accepts every POST. -/
def neverFailClient : List SplunkEvent → Option GoError :=
  fun _ => none

/-! ## The `SplunkFirehoseNozzle.EventSink` wiring (src/unnamed/part_000) -/

/-- The writer-creation loop of `EventSink` (part_000 lines 99–105):
`for i := 0; i < s.config.HecWorkers+1; i++` appends one Splunk writer per
iteration; writers are identified by their loop index. -/
def eventSinkWriters (hecWorkers : Nat) : List Nat :=
  List.range (hecWorkers + 1)

/-- Modelled from the spec: the `eventsink.NewSplunk` worker pool is not
under src/ (only its construction site is).  Spec §4.3: flushed batches go
to "a pool of `N` delivery workers (`N` = configured `HecWorkers`)" while "a
separate, independently scheduled status-reporting task (not counted against
`N`)" reports status; spec §9 records that the writer slice is overloaded to
also host the periodic status reporter.  Accordingly the sink runs one
delivery worker per writer handed to it, except the one writer reserved for
the status reporter. -/
def sinkDeliveryWorkerCount (writers : List Nat) : Nat :=
  writers.length - 1

/-- The status-reporter scheduling of `EventSink` (part_000 lines 144–146):
`go splunkSink.LogStatus()` is spawned as its own goroutine exactly when
`StatusMonitorInterval > time.Second*0`; the interval is a `time.Duration`
in nanoseconds. -/
def statusReporterScheduled (statusMonitorInterval : Int) : Bool :=
  0 < statusMonitorInterval

/-! ## Concrete sample inputs for witnesses and counterexamples -/

/-- A nozzle state whose filter admits every event kind. -/
def allIncluded : SplunkNozzleState :=
  { includedEventTypes := fun _ => true, batch := [] }

/-- A well-formed LogMessage envelope. -/
def envLogMessageSample : events.Envelope :=
  { eventType := some .LogMessage
    deployment := some "cf"
    job := some "runner_z1"
    timestamp := some 1500000000000000000
    logMessage := some { message := some "hello", appId := some "app-1" } }

/-- A well-formed ValueMetric envelope. -/
def envValueMetricSample : events.Envelope :=
  { eventType := some .ValueMetric
    valueMetric := some { name := some "latency", value := some ⟨3, -1⟩, unit := some "ms" } }

/-- An HttpStart envelope. -/
def envHttpStartSample : events.Envelope := { eventType := some .HttpStart }

/-- An HttpStartStop envelope whose declared kind lacks its payload. -/
def envHttpStartStopNilPayload : events.Envelope := { eventType := some .HttpStartStop }

/-- A fresh run state with an all-admitting filter and empty batch. -/
def initialRunState : RunState := { nozzle := allIncluded, posted := [] }

/-- A run state holding one buffered record, ready to flush. -/
def tickReadyState : RunState :=
  { nozzle := { includedEventTypes := fun _ => true
                batch := [BuildValueMetric envValueMetricSample] }
    posted := [] }

/-! ## C6 — dropping a non-selected kind has no effects -/

/-- C6: an envelope whose kind is not in the configured allow-list is
dropped by `handleEvent` with no state change at all — no record is
emitted and the batch is untouched (the nozzle in src/ holds no cache, so
an enrichment lookup cannot occur). -/
theorem C6_drop_unselected_no_effects :
    ∀ (s : SplunkNozzleState) (env : events.Envelope),
      s.includedEventTypes env.GetEventType = false →
      handleEvent s env = s := by
  intro s env h
  simp [handleEvent, h]

/-- Witness for C6 at a ValueMetric envelope against the constructor's
empty selection. -/
theorem C6_drop_unselected_witness :
    handleEvent (NewSplunkForwarder []) envValueMetricSample = NewSplunkForwarder [] :=
  C6_drop_unselected_no_effects (NewSplunkForwarder []) envValueMetricSample rfl

/-! ## C10 — HttpStart and HttpStop build nothing -/

/-- After the construction loop of `NewSplunkForwarder`, a kind mapped to
`true` by the starting map stays `true`. -/
theorem foldlSelect_preserves_true :
    ∀ (sel : List events.Envelope_EventType) (m : events.Envelope_EventType → Bool)
      (t : events.Envelope_EventType), m t = true →
      (sel.foldl (fun m' selectedEventType t' =>
        if t' = selectedEventType then true else m' t') m) t = true := by
  intro sel
  induction sel with
  | nil => intro m t h; exact h
  | cons s rest ih =>
    intro m t h
    exact ih _ t (by by_cases hts : t = s <;> simp [hts, h])

/-- Every selected kind is mapped to `true` by the construction loop. -/
theorem foldlSelect_mem_true :
    ∀ (sel : List events.Envelope_EventType) (m : events.Envelope_EventType → Bool)
      (t : events.Envelope_EventType), t ∈ sel →
      (sel.foldl (fun m' selectedEventType t' =>
        if t' = selectedEventType then true else m' t') m) t = true := by
  intro sel
  induction sel with
  | nil => intro m t h; cases h
  | cons s rest ih =>
    intro m t h
    cases h with
    | head => exact foldlSelect_preserves_true rest _ s (by simp)
    | tail _ hmem => exact ih _ t hmem

/-- C10: `NewSplunkForwarder` accepts `HttpStart` and `HttpStop` into the
allow-list like any selected kind, yet `handleEvent` on an envelope of
either kind builds no event and leaves the state — in particular the
batch — unchanged: their switch cases are empty. -/
theorem C10_http_start_stop_build_nothing :
    (∀ (sel : List events.Envelope_EventType) (t : events.Envelope_EventType),
      t ∈ sel → (NewSplunkForwarder sel).includedEventTypes t = true) ∧
    (∀ (s : SplunkNozzleState) (env : events.Envelope),
      env.GetEventType = .HttpStart ∨ env.GetEventType = .HttpStop →
      handleEvent s env = s) := by
  constructor
  · intro sel t h
    exact foldlSelect_mem_true sel _ t h
  · intro s env h
    by_cases hInc : s.includedEventTypes env.GetEventType = false
    · simp [handleEvent, hInc]
    · rcases h with h | h <;> simp [handleEvent, hInc, h, buildEventFor]

/-- Witness for C10: `HttpStart` selected by the constructor is admitted,
and an admitted `HttpStart` envelope leaves the state unchanged. -/
theorem C10_http_start_stop_witness :
    (NewSplunkForwarder [events.Envelope_EventType.HttpStart]).includedEventTypes
        events.Envelope_EventType.HttpStart = true ∧
    handleEvent allIncluded envHttpStartSample = allIncluded :=
  ⟨C10_http_start_stop_build_nothing.1 [events.Envelope_EventType.HttpStart]
      events.Envelope_EventType.HttpStart (by simp),
   C10_http_start_stop_build_nothing.2 allIncluded envHttpStartSample (Or.inl rfl)⟩

/-! ## C9 — delivery worker pool size -/

/-- C9: the writer loop creates `HecWorkers + 1` writers and the sink's
delivery pool is one fewer — exactly `HecWorkers` delivery workers,
independent of the status-reporting configuration — while the status
reporter is spawned as its own goroutine exactly when a positive reporting
interval is configured. -/
theorem C9_worker_pool_size :
    ∀ (hecWorkers : Nat) (statusMonitorInterval : Int),
      sinkDeliveryWorkerCount (eventSinkWriters hecWorkers) = hecWorkers ∧
      (statusReporterScheduled statusMonitorInterval = true ↔ 0 < statusMonitorInterval) := by
  intro hecWorkers statusMonitorInterval
  constructor
  · simp [sinkDeliveryWorkerCount, eventSinkWriters]
  · simp [statusReporterScheduled]

/-! ## C7 — a source error halts the loop -/

/-- A loop iteration on a non-error input never returns an error. -/
theorem runStep_no_error (postBatch : List SplunkEvent → Option GoError)
    (st : RunState) (i : RunInput) (h : i.isSourceError = false) :
    runStep postBatch st i = ((runStep postBatch st i).1, none) := by
  cases i with
  | sourceError err => simp [RunInput.isSourceError] at h
  | envelope env => rfl
  | tick => by_cases hlen : 0 < st.nozzle.batch.length <;> simp [runStep, hlen]

/-- C7: when the error channel delivers `err` after an error-free prefix of
the trace, `Run` returns exactly that error, and the final state is the
state reached after the prefix alone: nothing delivered after the error is
processed, and the error is not retried. -/
theorem C7_source_error_halts :
    ∀ (postBatch : List SplunkEvent → Option GoError) (st : RunState)
      (pre post : List RunInput) (err : GoError),
      (∀ i ∈ pre, i.isSourceError = false) →
      runTrace postBatch st (pre ++ RunInput.sourceError err :: post) =
        ((runTrace postBatch st pre).1, some err) := by
  intro postBatch st pre post err
  induction pre generalizing st with
  | nil => intro _; rfl
  | cons i rest ih =>
    intro h
    have hi := h i (List.mem_cons_self i rest)
    have hrest : ∀ j ∈ rest, j.isSourceError = false :=
      fun j hj => h j (List.mem_cons_of_mem i hj)
    rw [List.cons_append, runTrace, runStep_no_error postBatch st i hi,
      runTrace, runStep_no_error postBatch st i hi]
    exact ih _ hrest

/-- Trace prefix used by the C7 witness. -/
def c7Pre : List RunInput := [RunInput.envelope envValueMetricSample, RunInput.tick]

/-- Witness for C7 on a concrete trace: an envelope and a tick, then a
source error, then a further envelope that is never processed. -/
theorem C7_source_error_halts_witness :
    runTrace neverFailClient initialRunState
        (c7Pre ++ RunInput.sourceError "firehose disconnected" ::
          [RunInput.envelope envValueMetricSample]) =
      ((runTrace neverFailClient initialRunState c7Pre).1, some "firehose disconnected") :=
  C7_source_error_halts neverFailClient initialRunState c7Pre
    [RunInput.envelope envValueMetricSample] "firehose disconnected" (by decide)

/-! ## C1 — the loop flushes only on the tick -/

/-- C1 counterexample: taking the configured BatchSize as 2, two envelope
arrivals with no tick make the batch reach length 2, yet nothing is posted
and the batch is still held — the run loop has no batch-size trigger, so a
batch is held past the size trigger whenever it fires before the tick. -/
theorem C1_no_size_trigger_counterexample :
    (runTrace alwaysFailClient initialRunState
        [RunInput.envelope envValueMetricSample,
         RunInput.envelope envValueMetricSample]).1.nozzle.batch.length = 2 ∧
    (runTrace alwaysFailClient initialRunState
        [RunInput.envelope envValueMetricSample,
         RunInput.envelope envValueMetricSample]).1.posted = [] :=
  ⟨rfl, rfl⟩

/-- C1 (amended): the run loop flushes only on the periodic tick: a loop
iteration posts a batch exactly when the input is a tick and the batch is
non-empty, and then it posts the whole current batch and empties it; no
batch-length condition ever triggers a flush. -/
theorem C1_flush_only_on_tick :
    ∀ (postBatch : List SplunkEvent → Option GoError) (st : RunState) (i : RunInput),
      ((runStep postBatch st i).1.posted ≠ st.posted →
        i = RunInput.tick ∧ 0 < st.nozzle.batch.length) ∧
      (i = RunInput.tick → 0 < st.nozzle.batch.length →
        (runStep postBatch st i).1 =
          { nozzle := { st.nozzle with batch := [] }
            posted := st.posted ++ [st.nozzle.batch] }) := by
  intro postBatch st i
  cases i with
  | sourceError err => exact ⟨fun h => absurd rfl h, fun h => by cases h⟩
  | envelope env => exact ⟨fun h => absurd rfl h, fun h => by cases h⟩
  | tick =>
    constructor
    · intro hne
      by_cases hlen : 0 < st.nozzle.batch.length
      · exact ⟨rfl, hlen⟩
      · exact absurd (by simp [runStep, hlen]) hne
    · intro _ hlen
      simp [runStep, hlen]

/-- Witness for C1 (amended) at a state holding one buffered record. -/
theorem C1_flush_only_on_tick_witness :
    (runStep alwaysFailClient tickReadyState RunInput.tick).1 =
      { nozzle := { tickReadyState.nozzle with batch := [] }
        posted := tickReadyState.posted ++ [tickReadyState.nozzle.batch] } :=
  (C1_flush_only_on_tick alwaysFailClient tickReadyState RunInput.tick).2 rfl (by decide)

/-! ## C2 — one attempt, result discarded, no retries -/

/-- C2 counterexample: against a delivery that always fails, a flushed batch
is attempted exactly once — not the claimed `Retries = 3` times — and the
loop keeps no lost-events counter: the `PostBatch` error is discarded and
the batch cleared unconditionally, so the later ticks find nothing to
post. -/
theorem C2_single_attempt_counterexample :
    (runTrace alwaysFailClient initialRunState
        [RunInput.envelope envValueMetricSample,
         RunInput.tick, RunInput.tick, RunInput.tick]).1.posted =
      [[BuildValueMetric envValueMetricSample]] ∧
    (runTrace alwaysFailClient initialRunState
        [RunInput.envelope envValueMetricSample,
         RunInput.tick, RunInput.tick, RunInput.tick]).1.posted.length = 1 :=
  ⟨rfl, rfl⟩

/-- C2 (amended): on a tick with a non-empty batch the loop calls
`PostBatch` exactly once, clears the batch unconditionally, and continues;
the delivery result is discarded, so the step does not depend on the
delivery outcome at all — no retry, no drop accounting, no loss counter. -/
theorem C2_post_once_ignore_result :
    ∀ (postBatch postBatch2 : List SplunkEvent → Option GoError) (st : RunState),
      0 < st.nozzle.batch.length →
      runStep postBatch st RunInput.tick =
        ({ nozzle := { st.nozzle with batch := [] }
           posted := st.posted ++ [st.nozzle.batch] }, none) ∧
      runStep postBatch st RunInput.tick = runStep postBatch2 st RunInput.tick := by
  intro postBatch postBatch2 st h
  exact ⟨by simp [runStep, h], rfl⟩

/-- Witness for C2 (amended): a failing and a succeeding delivery endpoint
produce the same step from a state with one buffered record. -/
theorem C2_post_once_witness :
    runStep alwaysFailClient tickReadyState RunInput.tick =
      ({ nozzle := { tickReadyState.nozzle with batch := [] }
         posted := tickReadyState.posted ++ [tickReadyState.nozzle.batch] }, none) ∧
    runStep alwaysFailClient tickReadyState RunInput.tick =
      runStep neverFailClient tickReadyState RunInput.tick :=
  C2_post_once_ignore_result alwaysFailClient neverFailClient tickReadyState (by decide)

/-! ## C3 — timestamp conversion rounds, it does not truncate -/

set_option maxRecDepth 10000 in
/-- C3 counterexample: at 1999999 ns (exactly 0.001999999 s) the code
formats "0.002" — `%.3f` rounds the binary64 value to nearest — while the
truncation the claim describes yields "0.001". -/
theorem C3_rounds_not_truncates_counterexample :
    nanoSecondsToSeconds 1999999 = "0.002" ∧
    truncatedThreeDecimalSeconds 1999999 = "0.001" ∧
    nanoSecondsToSeconds 1999999 ≠ truncatedThreeDecimalSeconds 1999999 := by
  refine ⟨by decide, by decide, by decide⟩

set_option maxRecDepth 10000 in
/-- The fractional field of `%.3f` is always three decimal digits. -/
theorem pad3_spec :
    ∀ r < 1000, (pad3 r).length = 3 ∧ (pad3 r).data.all (fun c => c.isDigit) = true := by
  decide

/-- Every formatted value ends in a point and exactly three decimal
digits. -/
theorem sprintfDot3f_shape (v : Dyadic) : hasThreeDecimals (sprintfDot3f v) := by
  refine ⟨(if v.m < 0 then "-" else "") ++
      natRepr (roundDyadicHalfEven (v.m.natAbs * 1000) v.e / 1000),
    pad3 (roundDyadicHalfEven (v.m.natAbs * 1000) v.e % 1000), rfl, ?_, ?_⟩
  · exact (pad3_spec _ (Nat.mod_lt _ (by decide))).1
  · exact (pad3_spec _ (Nat.mod_lt _ (by decide))).2

set_option maxRecDepth 10000 in
/-- C3 (amended): the conversion formats the binary64 value
`float64(n) * math.Pow(1000, -3)` with exactly three decimal digits,
rounding to nearest rather than truncating; 1500000000000000000 ns yields
"1500000000.000" as the claim's example states, while 1999999 ns yields the
rounded "0.002". -/
theorem C3_rounded_three_decimals :
    nanoSecondsToSeconds 1500000000000000000 = "1500000000.000" ∧
    nanoSecondsToSeconds 1999999 = "0.002" ∧
    ∀ n : Int, hasThreeDecimals (nanoSecondsToSeconds n) := by
  refine ⟨by decide, by decide, fun n => sprintfDot3f_shape _⟩

/-! ## C4 — uuidToHex renders canonical lowercase hex -/

set_option maxRecDepth 10000 in
/-- Both hex characters of a byte are lowercase hex digits. -/
theorem byteHexDigits_ok :
    ∀ b < 256, isLowerHexDigit (hexDigitChar (b / 16)) = true ∧
      isLowerHexDigit (hexDigitChar (b % 16)) = true := by
  decide

/-- `hex.Encode` yields two characters per byte. -/
theorem hexEncode_length (bs : List Nat) : (hexEncode bs).length = 2 * bs.length := by
  show (hexChars bs).length = 2 * bs.length
  induction bs with
  | nil => rfl
  | cons b rest ih => simp [hexChars, ih]; omega

/-- `hex.Encode` of bytes yields lowercase hex digits only. -/
theorem hexEncode_all (bs : List Nat) (h : ∀ b ∈ bs, b < 256) :
    (hexEncode bs).data.all isLowerHexDigit = true := by
  show (hexChars bs).all isLowerHexDigit = true
  induction bs with
  | nil => rfl
  | cons b rest ih =>
    have hb := byteHexDigits_ok b (h b (List.mem_cons_self b rest))
    have hrest := ih (fun x hx => h x (List.mem_cons_of_mem b hx))
    simp [hexChars, hb.1, hb.2, hrest]

/-- Every little-endian byte is below 256. -/
theorem leBytes8_bounds : ∀ (x : Nat), ∀ b ∈ leBytes8 x, b < 256 := by
  intro x b hb
  simp [leBytes8] at hb
  rcases hb with rfl | rfl | rfl | rfl | rfl | rfl | rfl | rfl <;>
    exact Nat.mod_lt _ (by decide)

/-- C4: `uuidToHex` is a total function sending every (low, high) uint64
pair to a 36-character string of five dash-separated lowercase-hex groups of
lengths 8, 4, 4, 4 and 12, and the nil identifier to the empty string. -/
theorem C4_uuid_rendering :
    (∀ (low high : Nat), low < 2 ^ 64 → high < 2 ^ 64 →
      (uuidToHex (some ⟨low, high⟩)).length = 36 ∧
      isCanonicalUuidHex (uuidToHex (some ⟨low, high⟩))) ∧
    uuidToHex none = "" := by
  refine ⟨?_, rfl⟩
  intro low high _ _
  have hrw : uuidToHex (some ⟨low, high⟩) =
      hexEncode ((leBytes8 low ++ leBytes8 high).take 4) ++ "-" ++
        hexEncode (((leBytes8 low ++ leBytes8 high).drop 4).take 2) ++ "-" ++
        hexEncode (((leBytes8 low ++ leBytes8 high).drop 6).take 2) ++ "-" ++
        hexEncode (((leBytes8 low ++ leBytes8 high).drop 8).take 2) ++ "-" ++
        hexEncode ((leBytes8 low ++ leBytes8 high).drop 10) := rfl
  rw [hrw]
  set B := leBytes8 low ++ leBytes8 high with hBdef
  have hbounds : ∀ b ∈ B, b < 256 := by
    intro b hb
    rw [hBdef] at hb
    rcases List.mem_append.mp hb with h | h
    · exact leBytes8_bounds low b h
    · exact leBytes8_bounds high b h
  have hlen : B.length = 16 := by rw [hBdef]; simp [leBytes8]
  have t1 : (B.take 4).length = 4 := by simp only [List.length_take, hlen]; omega
  have t2 : ((B.drop 4).take 2).length = 2 := by
    simp only [List.length_take, List.length_drop, hlen]; omega
  have t3 : ((B.drop 6).take 2).length = 2 := by
    simp only [List.length_take, List.length_drop, hlen]; omega
  have t4 : ((B.drop 8).take 2).length = 2 := by
    simp only [List.length_take, List.length_drop, hlen]; omega
  have t5 : (B.drop 10).length = 6 := by simp only [List.length_drop, hlen]
  have l1 : (hexEncode (B.take 4)).length = 8 := by rw [hexEncode_length, t1]
  have l2 : (hexEncode ((B.drop 4).take 2)).length = 4 := by rw [hexEncode_length, t2]
  have l3 : (hexEncode ((B.drop 6).take 2)).length = 4 := by rw [hexEncode_length, t3]
  have l4 : (hexEncode ((B.drop 8).take 2)).length = 4 := by rw [hexEncode_length, t4]
  have l5 : (hexEncode (B.drop 10)).length = 12 := by rw [hexEncode_length, t5]
  have a1 : (hexEncode (B.take 4)).data.all isLowerHexDigit = true :=
    hexEncode_all _ (fun b hb => hbounds b (List.take_subset _ _ hb))
  have a2 : (hexEncode ((B.drop 4).take 2)).data.all isLowerHexDigit = true :=
    hexEncode_all _ (fun b hb => hbounds b (List.drop_subset _ _ (List.take_subset _ _ hb)))
  have a3 : (hexEncode ((B.drop 6).take 2)).data.all isLowerHexDigit = true :=
    hexEncode_all _ (fun b hb => hbounds b (List.drop_subset _ _ (List.take_subset _ _ hb)))
  have a4 : (hexEncode ((B.drop 8).take 2)).data.all isLowerHexDigit = true :=
    hexEncode_all _ (fun b hb => hbounds b (List.drop_subset _ _ (List.take_subset _ _ hb)))
  have a5 : (hexEncode (B.drop 10)).data.all isLowerHexDigit = true :=
    hexEncode_all _ (fun b hb => hbounds b (List.drop_subset _ _ hb))
  constructor
  · simp only [String.length_append, l1, l2, l3, l4, l5]
    decide
  · exact ⟨_, _, _, _, _, rfl, ⟨l1, a1⟩, ⟨l2, a2⟩, ⟨l3, a3⟩, ⟨l4, a4⟩, ⟨l5, a5⟩⟩

/-- Witness for C4 at the zero identifier. -/
theorem C4_uuid_rendering_witness :
    (uuidToHex (some ⟨0, 0⟩)).length = 36 ∧
    isCanonicalUuidHex (uuidToHex (some ⟨0, 0⟩)) :=
  C4_uuid_rendering.1 0 0 (by decide) (by decide)

/-! ## C5 — the record's eventType matches the envelope's kind -/

/-- Each record the switch builds carries the canonical name of the
envelope's kind in its common eventType field. -/
theorem buildEventFor_eventType (env : events.Envelope) (e : SplunkEvent)
    (h : buildEventFor env.GetEventType env = some e) :
    payloadEventType e.Event = eventTypeString env.GetEventType := by
  cases hEt : env.GetEventType <;> rw [hEt] at h <;> simp [buildEventFor] at h <;>
    rw [← h] <;>
    simp [BuildHttpStartStopMetric, BuildLogMessageMetric, BuildValueMetric,
      BuildCounterEventMetric, BuildErrorMetric, BuildContainerMetric,
      buildSplunkMetric, payloadEventType, hEt]

/-- C5: whenever `handleEvent` yields an output record — appending exactly
that record to the batch — the record's eventType field equals the canonical
name of the source envelope's kind. -/
theorem C5_event_type_matches_kind :
    ∀ (s : SplunkNozzleState) (env : events.Envelope) (e : SplunkEvent),
      handleEvent s env = { s with batch := s.batch ++ [e] } →
      payloadEventType e.Event = eventTypeString env.GetEventType := by
  intro s env e h
  simp only [handleEvent] at h
  by_cases hInc : s.includedEventTypes env.GetEventType = false
  · rw [if_pos hInc] at h
    have hlen := congrArg (fun st => st.batch.length) h
    simp at hlen
  · rw [if_neg hInc] at h
    cases hB : buildEventFor env.GetEventType env with
    | none =>
      rw [hB] at h
      have hlen := congrArg (fun st => st.batch.length) h
      simp at hlen
    | some e0 =>
      rw [hB] at h
      simp at h
      subst h
      exact buildEventFor_eventType env e0 hB

/-- Witness for C5 at a LogMessage envelope: the emitted record's eventType
is "LogMessage". -/
theorem C5_event_type_witness :
    payloadEventType (BuildLogMessageMetric envLogMessageSample).Event =
      eventTypeString envLogMessageSample.GetEventType :=
  C5_event_type_matches_kind allIncluded envLogMessageSample
    (BuildLogMessageMetric envLogMessageSample) rfl

/-! ## C8 — a malformed envelope is not skipped -/

/-- C8 counterexample: an envelope declaring kind HttpStartStop with its
payload absent is not skipped: `handleEvent` appends one output record for
it (built entirely from protobuf zero values), and the model — which records
every observable effect of the loop — shows no log entry being written for
it. -/
theorem C8_not_skipped_counterexample :
    (handleEvent allIncluded envHttpStartStopNilPayload).batch.length = 1 := rfl

/-- C8 (amended): an envelope whose declared kind (HttpStartStop) lacks its
expected payload is not skipped and not logged: the nil-safe getters supply
zero values, so handling it appends exactly one output record whose
kind-specific fields are the protobuf defaults; the loop continues without
error, leaving the handling of every other envelope unaffected. -/
theorem C8_default_record_for_missing_payload :
    ∀ (s : SplunkNozzleState) (env : events.Envelope),
      env.eventType = some .HttpStartStop →
      env.httpStartStop = none →
      s.includedEventTypes .HttpStartStop = true →
      handleEvent s env = { s with batch := s.batch ++ [BuildHttpStartStopMetric env] } ∧
      (BuildHttpStartStopMetric env).Event =
        SplunkPayload.httpStartStop
          { Common := { Deployment := env.GetDeployment
                        Index := env.GetIndex
                        EventType := "HttpStartStop" }
            StartTimestamp := 0
            StopTimestamp := 0
            RequestId := ""
            PeerType := "Client"
            Method := "GET"
            Uri := ""
            RemoteAddress := ""
            UserAgent := ""
            StatusCode := 0
            ContentLength := 0
            ApplicationId := ""
            InstanceIndex := 0
            Forwarded := [] } ∧
      (∀ (postBatch : List SplunkEvent → Option GoError) (st : RunState),
        (runStep postBatch st (RunInput.envelope env)).2 = none) := by
  intro s env h1 h2 h3
  have hEt : env.GetEventType = .HttpStartStop := by
    simp [events.Envelope.GetEventType, h1]
  refine ⟨?_, ?_, fun postBatch st => rfl⟩
  · simp [handleEvent, hEt, h3, buildEventFor]
  · simp [BuildHttpStartStopMetric, buildSplunkMetric, h2, hEt,
      events.HttpStartStop.GetStartTimestamp, events.HttpStartStop.GetStopTimestamp,
      events.HttpStartStop.GetRequestId, events.HttpStartStop.GetPeerType,
      events.HttpStartStop.GetMethod, events.HttpStartStop.GetUri,
      events.HttpStartStop.GetRemoteAddress, events.HttpStartStop.GetUserAgent,
      events.HttpStartStop.GetStatusCode, events.HttpStartStop.GetContentLength,
      events.HttpStartStop.GetApplicationId, events.HttpStartStop.GetInstanceIndex,
      events.HttpStartStop.GetForwarded, uuidToHex, peerTypeString, methodString,
      eventTypeString]

/-- Witness for C8 (amended) at a concrete HttpStartStop envelope with
absent payload. -/
theorem C8_default_record_witness :
    handleEvent allIncluded envHttpStartStopNilPayload =
      { allIncluded with
        batch := allIncluded.batch ++
          [BuildHttpStartStopMetric envHttpStartStopNilPayload] } ∧
    (BuildHttpStartStopMetric envHttpStartStopNilPayload).Event =
      SplunkPayload.httpStartStop
        { Common := { Deployment := envHttpStartStopNilPayload.GetDeployment
                      Index := envHttpStartStopNilPayload.GetIndex
                      EventType := "HttpStartStop" }
          StartTimestamp := 0
          StopTimestamp := 0
          RequestId := ""
          PeerType := "Client"
          Method := "GET"
          Uri := ""
          RemoteAddress := ""
          UserAgent := ""
          StatusCode := 0
          ContentLength := 0
          ApplicationId := ""
          InstanceIndex := 0
          Forwarded := [] } :=
  ⟨(C8_default_record_for_missing_payload allIncluded envHttpStartStopNilPayload
      rfl rfl rfl).1,
   (C8_default_record_for_missing_payload allIncluded envHttpStartStopNilPayload
      rfl rfl rfl).2.1⟩
